import Mathlib

/-!
Shallow embedding of `scripts/ic_light_script.py` (sd-forge-ic-light):
the IC-Light relighting script's request lifecycle and backend-dispatch
state machine. Image buffers and the external image algorithms
(`get_lightmap`, `apply_ic_light`, `restore_detail`, numpy conversion)
live outside this file's repository slice, so they are abstracted as an
arbitrary type `Img` and explicit function parameters; everything the
script itself does (guards, dispatch, state updates, list appends,
ordering) is embedded directly from the source.
-/

namespace ICLight

/-- Relighting mode enum (`libiclight.model_loader.ModelType`): FC is
foreground-conditioned, FBC is foreground-background-conditioned. -/
inductive ModelType
  | FC
  | FBC
deriving DecidableEq, Repr

/-- Background-source presets for FC mode (`libiclight.args.BGSourceFC`);
only the NONE/CUSTOM distinction matters to the script's control flow. -/
inductive BGSourceFC
  | NONE
  | CUSTOM
  | LEFT
  | RIGHT
  | TOP
  | BOTTOM
deriving DecidableEq, Repr

/-- Background-source presets for FBC mode (`libiclight.args.BGSourceFBC`). -/
inductive BGSourceFBC
  | UPLOAD
  | UPLOAD_FLIP
deriving DecidableEq, Repr

/-- Backend enum from `ic_light_script.py` lines 22-24. -/
inductive BackendType
  | A1111
  | Forge
deriving DecidableEq, Repr

/-- Host processing-object kind: `StableDiffusionProcessingTxt2Img` vs
`StableDiffusionProcessingImg2Img`. -/
inductive ProcessingMode
  | txt2img
  | img2img
deriving DecidableEq, Repr

/-- The request argument model (`libiclight.args.ICLightArgs`), with the
fields the script reads. `detail_transfer_blur_radius` arrives from the
Gradio slider as a Python float, modelled as a rational; the derived
cached field `input_fg_rgb` is opaque image data like `input_fg`. -/
structure ICLightArgs (Img : Type) where
  enabled : Bool
  model_type : ModelType
  input_fg : Img
  uploaded_bg : Option Img
  bg_source_fc : BGSourceFC
  bg_source_fbc : BGSourceFBC
  remove_bg : Bool
  reinforce_fg : Bool
  detail_transfer : Bool
  detail_transfer_use_raw_input : Bool
  detail_transfer_blur_radius : Rat
  input_fg_rgb : Img

/-- The slice of the host's mutable processing object the script touches:
its kind, the hires-fix flag (`getattr(p, "enable_hr", False)`), the
img2img initial images, and the auxiliary images an A1111 backend run may
attach (`getattr(p, "extra_result_images", None)`; an absent attribute and
an empty list are both falsy in Python, so both are the empty list here). -/
structure Processing (Img : Type) where
  mode : ProcessingMode
  enable_hr : Bool
  init_images : List Img
  extra_result_images : List Img

/-- The host's per-image postprocess argument (`scripts.PostprocessImageArgs`):
the produced image the hook may inspect. -/
structure PostprocessImageArgs (Img : Type) where
  image : Img

/-- The host's final result object: the output image collection. -/
structure Processed (Img : Type) where
  images : List Img

/-- The script's own mutable state: the backend chosen at construction,
the per-run request (`self.args`), and the per-run stash of
detail-restored images (`self.detailed_images`). -/
structure ScriptState (Img : Type) where
  backend_type : BackendType
  args : Option (ICLightArgs Img)
  detailed_images : List Img

/-- Python `int(...)` applied to a rational: truncation toward zero. -/
def pyInt (q : Rat) : Int := Int.tdiv q.num (q.den : Int)

namespace ICLightScript

/-- Constructor (`__init__`, lines 57-71): probe for the Forge backend by
import; on success the backend is Forge, on ImportError it falls back to
A1111. `self.args` starts as None. The import probe's outcome is the
boolean `forge_importable`. -/
def init (Img : Type) (forge_importable : Bool) : ScriptState Img :=
  { backend_type := if forge_importable then BackendType.Forge else BackendType.A1111
    args := none
    detailed_images := [] }

/-- Hook `before_process` (lines 254-264). `ICLightArgs.fetch_from(p)`
lives in `libiclight.args` (outside this repository slice), so the fetched
request is a parameter; `Image.fromarray(args.get_lightmap(p))` is the
opaque parameter `get_lightmap`. The hook resets `self.detailed_images`,
stores None and returns if the request is disabled, otherwise replaces
`p.init_images[0]` on img2img runs (an IndexError when the list is empty)
and stores the request. -/
def before_process (Img : Type)
    (get_lightmap : ICLightArgs Img → Processing Img → Img)
    (st : ScriptState Img) (p : Processing Img) (fetched : ICLightArgs Img) :
    Except String (ScriptState Img × Processing Img) :=
  if fetched.enabled = false then
    Except.ok ({ st with detailed_images := [], args := none }, p)
  else if p.mode = ProcessingMode.img2img then
    match p.init_images with
    | [] => Except.error "IndexError: list assignment index out of range"
    | _ :: rest =>
        Except.ok ({ st with detailed_images := [], args := some fetched },
          { p with init_images := get_lightmap fetched p :: rest })
  else
    Except.ok ({ st with detailed_images := [], args := some fetched }, p)

/-- Hook `process` (lines 266-279), the A1111 apply hook: no-op unless the
backend is A1111 and an enabled request is stored; raises
NotImplementedError on a txt2img run with hires-fix enabled; otherwise
invokes the opaque `apply_ic_light` on the processing object. -/
def process (Img : Type)
    (apply_ic_light : Processing Img → ICLightArgs Img → Processing Img)
    (st : ScriptState Img) (p : Processing Img) :
    Except String (ScriptState Img × Processing Img) :=
  if st.backend_type ≠ BackendType.A1111 then
    Except.ok (st, p)
  else
    match st.args with
    | none => Except.ok (st, p)
    | some a =>
      if a.enabled = false then
        Except.ok (st, p)
      else if p.mode = ProcessingMode.txt2img ∧ p.enable_hr = true then
        Except.error "NotImplementedError: Hires-fix is not yet supported in A1111."
      else
        Except.ok (st, apply_ic_light p a)

/-- Hook `process_before_every_sampling` (lines 281-291), the Forge apply
hook: no-op when the backend is A1111 or no enabled request is stored;
otherwise invokes the opaque `apply_ic_light`. -/
def process_before_every_sampling (Img : Type)
    (apply_ic_light : Processing Img → ICLightArgs Img → Processing Img)
    (st : ScriptState Img) (p : Processing Img) :
    ScriptState Img × Processing Img :=
  if st.backend_type = BackendType.A1111 then
    (st, p)
  else
    match st.args with
    | none => (st, p)
    | some a =>
      if a.enabled = false then (st, p)
      else (st, apply_ic_light p a)

/-- Hook `postprocess_image` (lines 293-311): no-op unless an enabled
request with `detail_transfer` is stored; otherwise appends
`restore_detail(np.asarray(pp.image).astype(np.uint8), reference, int(blur_radius))`
to `self.detailed_images`, where the reference is the raw `input_fg` when
`detail_transfer_use_raw_input` else the derived `input_fg_rgb`. The numpy
conversion is the opaque parameter `np_uint8` and `restore_detail`
(`libiclight.detail_utils`) is opaque. `pp` is only read, never written. -/
def postprocess_image (Img : Type)
    (np_uint8 : Img → Img)
    (restore_detail : Img → Img → Int → Img)
    (st : ScriptState Img) (pp : PostprocessImageArgs Img) :
    ScriptState Img × PostprocessImageArgs Img :=
  match st.args with
  | none => (st, pp)
  | some a =>
    if a.enabled = false ∨ a.detail_transfer = false then
      (st, pp)
    else
      ({ st with detailed_images := st.detailed_images ++
          [restore_detail (np_uint8 pp.image)
            (if a.detail_transfer_use_raw_input then a.input_fg else a.input_fg_rgb)
            (pyInt a.detail_transfer_blur_radius)] },
       pp)

/-- Hook `postprocess` (lines 313-320): no-op unless an enabled request is
stored; under the A1111 backend first appends `p.extra_result_images` (if
truthy) to `processed.images`, then appends `self.detailed_images` (if
truthy). -/
def postprocess (Img : Type)
    (st : ScriptState Img) (p : Processing Img) (processed : Processed Img) :
    ScriptState Img × Processed Img :=
  match st.args with
  | none => (st, processed)
  | some a =>
    if a.enabled = false then
      (st, processed)
    else
      let processed1 :=
        if st.backend_type = BackendType.A1111 ∧ p.extra_result_images.isEmpty = false then
          { processed with images := processed.images ++ p.extra_result_images }
        else processed
      let processed2 :=
        if st.detailed_images.isEmpty = false then
          { processed1 with images := processed1.images ++ st.detailed_images }
        else processed1
      (st, processed2)

end ICLightScript

/-- UI `Mode` dropdown choices (`ui`, lines 81-85): only FC is offered for
img2img, FC and FBC for txt2img. -/
def model_type_choices (is_img2img : Bool) : List ModelType :=
  if is_img2img then [ModelType.FC] else [ModelType.FC, ModelType.FBC]

/-- UI `Mode` dropdown interactivity (`ui`, line 94): `interactive=(not is_img2img)`. -/
def model_type_interactive (is_img2img : Bool) : Bool := !is_img2img

/-- UI `Mode` dropdown initial value (`ui`, line 93): `ModelType.FC.name`. -/
def model_type_default : ModelType := ModelType.FC

/-- Blur-radius slider minimum (`ui`, line 166). -/
def blur_radius_min : Int := 1

/-- Blur-radius slider maximum (`ui`, line 167). -/
def blur_radius_max : Int := 9

/-- Blur-radius slider step (`ui`, line 168). -/
def blur_radius_step : Int := 2

/-- Blur-radius slider default value (`ui`, line 169). -/
def blur_radius_default : Rat := 5

/-- Rounding of a rational to the nearest integer (half up). -/
def ratRound (q : Rat) : Int := ⌊q + 1 / 2⌋

/-- Modelled from the spec: the Gradio slider component that constrains
`detail_transfer_blur_radius` is part of the external UI library, absent
from this repository slice; per the spec the slider only carries values on
the step grid anchored at the minimum, clamped into [minimum, maximum]
(`detail_transfer_blur_radius: int, domain [1,9], odd`; out-of-range or
off-grid values are clamped consistently). -/
def slider_snap (mn mx step : Int) (x : Rat) : Int :=
  min mx (max mn (mn + step * ratRound ((x - (mn : Rat)) / (step : Rat))))

/-- The value set of the blur-radius slider (minimum 1, maximum 9, step 2). -/
def blur_radius_slider_values : List Int := [1, 3, 5, 7, 9]

/-! ### Concrete fixtures over `Img := Nat`, used by witnesses and
counterexamples. Image buffers are identified by small numerals. -/

/-- Fixture request with the given `enabled` and `detail_transfer` flags. -/
def wArgs (e dt : Bool) : ICLightArgs Nat :=
  { enabled := e
    model_type := ModelType.FC
    input_fg := 7
    uploaded_bg := none
    bg_source_fc := BGSourceFC.NONE
    bg_source_fbc := BGSourceFBC.UPLOAD
    remove_bg := true
    reinforce_fg := false
    detail_transfer := dt
    detail_transfer_use_raw_input := false
    detail_transfer_blur_radius := 5
    input_fg_rgb := 8 }

/-- Fixture processing object. -/
def wProc (m : ProcessingMode) (hr : Bool) (inits extras : List Nat) : Processing Nat :=
  { mode := m, enable_hr := hr, init_images := inits, extra_result_images := extras }

/-- Fixture script state. -/
def wState (b : BackendType) (a : Option (ICLightArgs Nat)) (d : List Nat) :
    ScriptState Nat :=
  { backend_type := b, args := a, detailed_images := d }

/-- Fixture lightmap computation: always image 42. -/
def wGetLightmap : ICLightArgs Nat → Processing Nat → Nat := fun _ _ => 42

/-- Fixture relighting application: leaves the processing object unchanged. -/
def wApply : Processing Nat → ICLightArgs Nat → Processing Nat := fun p _ => p

/-- Fixture numpy uint8 conversion. -/
def wU8 : Nat → Nat := id

/-- Fixture detail restoration: successor of the generated image id. -/
def wRestore : Nat → Nat → Int → Nat := fun g _ _ => g + 1

/-- Whether an `Except` computation succeeded. -/
def exceptOk {ε α : Type} : Except ε α → Bool
  | Except.ok _ => true
  | Except.error _ => false

/-- Fixture request for C2 (enabled, no detail transfer). -/
def c2A : ICLightArgs Nat := wArgs true false

/-- Fixture state for C2: A1111 backend with the enabled request stored. -/
def c2St : ScriptState Nat := wState BackendType.A1111 (some c2A) []

/-- Fixture txt2img run with hires-fix enabled. -/
def c2P : Processing Nat := wProc ProcessingMode.txt2img true [] []

/-- Fixture disabled request for C3. -/
def c3A : ICLightArgs Nat := wArgs false true

/-- Fixture pre-run state for C3, carrying leftovers from a previous run. -/
def c3St : ScriptState Nat := wState BackendType.Forge (some (wArgs true true)) [9]

/-- State after `before_process` on the C3 fixtures. -/
def c3St' : ScriptState Nat := wState BackendType.Forge none []

/-- Fixture img2img run for C3. -/
def c3P : Processing Nat := wProc ProcessingMode.img2img false [5] []

/-- Fixture produced image for C3. -/
def c3PP : PostprocessImageArgs Nat := PostprocessImageArgs.mk 11

/-- Fixture result collection for C3. -/
def c3Pr : Processed Nat := Processed.mk [10]

/-- Fixture enabled request for C4/C10. -/
def c4A : ICLightArgs Nat := wArgs true false

/-- Fixture pre-run state for C4/C10. -/
def c4St : ScriptState Nat := wState BackendType.A1111 none []

/-- Fixture img2img run with one initial image. -/
def c4P : Processing Nat := wProc ProcessingMode.img2img false [5] []

/-- State after `before_process` on the C4 fixtures. -/
def c4St' : ScriptState Nat := wState BackendType.A1111 (some c4A) []

/-- Processing object after `before_process` on the C4 fixtures: the
initial image replaced by the lightmap (image 42). -/
def c4P' : Processing Nat := wProc ProcessingMode.img2img false [42] []

/-- Fixture img2img run with no initial image. -/
def c10Pempty : Processing Nat := wProc ProcessingMode.img2img false [] []

/-- Fixture enabled request with detail transfer for C1. -/
def c1A : ICLightArgs Nat := wArgs true true

/-- Fixture end-of-run state for C1: A1111 backend, one stashed
detail-restored image (image 30). -/
def c1St : ScriptState Nat := wState BackendType.A1111 (some c1A) [30]

/-- Fixture processing object for C1 carrying one background composite
(image 20) in `extra_result_images`. -/
def c1P : Processing Nat := wProc ProcessingMode.txt2img false [] [20]

/-- Fixture host result for C1 with one primary generated image (image 10). -/
def c1Pr : Processed Nat := Processed.mk [10]

/-- Fixture Forge-backend state with a stored enabled request for C5. -/
def c5St : ScriptState Nat := wState BackendType.Forge (some c2A) [3]

/-- Fixture enabled request with detail transfer for C6. -/
def c6A : ICLightArgs Nat := wArgs true true

/-- Fixture state for C6. -/
def c6St : ScriptState Nat := wState BackendType.Forge (some c6A) [2]

/-- Fixture produced image for C6. -/
def c6PP : PostprocessImageArgs Nat := PostprocessImageArgs.mk 11

/-! ### Helper lemmas shared by the claim proofs. -/

/-- Invariants of a successful `before_process` run: the backend is
untouched, the per-run detail stash is reset, a disabled request clears
`self.args` and leaves the processing object alone, an enabled request is
stored. -/
theorem before_process_ok_inv (Img : Type)
    (get_lightmap : ICLightArgs Img → Processing Img → Img)
    (st st' : ScriptState Img) (p p' : Processing Img) (fetched : ICLightArgs Img)
    (hok : ICLightScript.before_process Img get_lightmap st p fetched =
      Except.ok (st', p')) :
    st'.backend_type = st.backend_type ∧
    st'.detailed_images = [] ∧
    (fetched.enabled = false → st'.args = none ∧ p' = p) ∧
    (fetched.enabled = true → st'.args = some fetched) := by
  unfold ICLightScript.before_process at hok
  by_cases he : fetched.enabled = false
  · rw [if_pos he] at hok
    simp only [Except.ok.injEq, Prod.mk.injEq] at hok
    obtain ⟨h1, h2⟩ := hok
    subst h1; subst h2
    refine ⟨rfl, rfl, fun _ => ⟨rfl, rfl⟩, fun ht => ?_⟩
    rw [he] at ht; cases ht
  · rw [if_neg he] at hok
    by_cases hm : p.mode = ProcessingMode.img2img
    · rw [if_pos hm] at hok
      cases hpi : p.init_images with
      | nil =>
        rw [hpi] at hok
        simp at hok
      | cons a t =>
        rw [hpi] at hok
        simp only [Except.ok.injEq, Prod.mk.injEq] at hok
        obtain ⟨h1, h2⟩ := hok
        subst h1; subst h2
        exact ⟨rfl, rfl, fun hd => absurd hd he, fun _ => rfl⟩
    · rw [if_neg hm] at hok
      simp only [Except.ok.injEq, Prod.mk.injEq] at hok
      obtain ⟨h1, h2⟩ := hok
      subst h1; subst h2
      exact ⟨rfl, rfl, fun hd => absurd hd he, fun _ => rfl⟩

/-- With no stored request, `process` is a no-op. -/
theorem process_no_request (Img : Type)
    (apply_ic_light : Processing Img → ICLightArgs Img → Processing Img)
    (st : ScriptState Img) (p : Processing Img) (h : st.args = none) :
    ICLightScript.process Img apply_ic_light st p = Except.ok (st, p) := by
  unfold ICLightScript.process
  rw [h]
  split <;> rfl

/-- With no stored request, `process_before_every_sampling` is a no-op. -/
theorem process_before_every_sampling_no_request (Img : Type)
    (apply_ic_light : Processing Img → ICLightArgs Img → Processing Img)
    (st : ScriptState Img) (p : Processing Img) (h : st.args = none) :
    ICLightScript.process_before_every_sampling Img apply_ic_light st p = (st, p) := by
  unfold ICLightScript.process_before_every_sampling
  rw [h]
  split <;> rfl

/-- With no stored request, `postprocess_image` is a no-op. -/
theorem postprocess_image_no_request (Img : Type)
    (np_uint8 : Img → Img) (restore_detail : Img → Img → Int → Img)
    (st : ScriptState Img) (pp : PostprocessImageArgs Img) (h : st.args = none) :
    ICLightScript.postprocess_image Img np_uint8 restore_detail st pp = (st, pp) := by
  unfold ICLightScript.postprocess_image
  rw [h]

/-- With no stored request, `postprocess` is a no-op. -/
theorem postprocess_no_request (Img : Type)
    (st : ScriptState Img) (p : Processing Img) (pr : Processed Img)
    (h : st.args = none) :
    ICLightScript.postprocess Img st p pr = (st, pr) := by
  unfold ICLightScript.postprocess
  rw [h]

/-- A successful `process` run never changes the script state. -/
theorem process_ok_state (Img : Type)
    (apply_ic_light : Processing Img → ICLightArgs Img → Processing Img)
    (st st' : ScriptState Img) (p p' : Processing Img)
    (hok : ICLightScript.process Img apply_ic_light st p = Except.ok (st', p')) :
    st' = st := by
  unfold ICLightScript.process at hok
  split at hok
  · simp only [Except.ok.injEq, Prod.mk.injEq] at hok
    exact hok.1.symm
  · split at hok
    · simp only [Except.ok.injEq, Prod.mk.injEq] at hok
      exact hok.1.symm
    · split at hok
      · simp only [Except.ok.injEq, Prod.mk.injEq] at hok
        exact hok.1.symm
      · split at hok
        · simp at hok
        · simp only [Except.ok.injEq, Prod.mk.injEq] at hok
          exact hok.1.symm

/-- Hook `process_before_every_sampling` never changes the script state. -/
theorem process_before_every_sampling_state (Img : Type)
    (apply_ic_light : Processing Img → ICLightArgs Img → Processing Img)
    (st : ScriptState Img) (p : Processing Img) :
    (ICLightScript.process_before_every_sampling Img apply_ic_light st p).1 = st := by
  unfold ICLightScript.process_before_every_sampling
  split
  · rfl
  · split
    · rfl
    · split <;> rfl

/-- Hook `postprocess_image` preserves the chosen backend and returns the
produced image untouched. -/
theorem postprocess_image_frame (Img : Type)
    (np_uint8 : Img → Img) (restore_detail : Img → Img → Int → Img)
    (st : ScriptState Img) (pp : PostprocessImageArgs Img) :
    ((ICLightScript.postprocess_image Img np_uint8 restore_detail st pp).1).backend_type
      = st.backend_type ∧
    (ICLightScript.postprocess_image Img np_uint8 restore_detail st pp).2 = pp := by
  unfold ICLightScript.postprocess_image
  split
  · exact ⟨rfl, rfl⟩
  · split <;> exact ⟨rfl, rfl⟩

/-- Hook `postprocess` never changes the script state. -/
theorem postprocess_state (Img : Type)
    (st : ScriptState Img) (p : Processing Img) (pr : Processed Img) :
    (ICLightScript.postprocess Img st p pr).1 = st := by
  unfold ICLightScript.postprocess
  split
  · rfl
  · split <;> rfl

/-! ### Claim theorems. -/

/-- C2: for every run under the A1111 (PreSampling) backend with an
enabled stored request, the apply hook `process` on a txt2img processing
object with `enable_hr` raises NotImplementedError, rejecting the run
before sampling instead of silently skipping. -/
theorem C2_hires_unsupported (Img : Type)
    (apply_ic_light : Processing Img → ICLightArgs Img → Processing Img)
    (st : ScriptState Img) (p : Processing Img) (a : ICLightArgs Img)
    (hb : st.backend_type = BackendType.A1111)
    (ha : st.args = some a) (he : a.enabled = true)
    (hm : p.mode = ProcessingMode.txt2img) (hh : p.enable_hr = true) :
    ICLightScript.process Img apply_ic_light st p =
      Except.error "NotImplementedError: Hires-fix is not yet supported in A1111." := by
  unfold ICLightScript.process
  rw [ha]
  simp [hb, he, hm, hh]

/-- Witness for C2 at a concrete A1111 hires-fix run. -/
theorem C2_witness :
    ICLightScript.process Nat wApply c2St c2P =
      Except.error "NotImplementedError: Hires-fix is not yet supported in A1111." :=
  C2_hires_unsupported Nat wApply c2St c2P c2A rfl rfl rfl rfl rfl

/-- C3: for every run whose fetched request is disabled, `before_process`
leaves the processing object unchanged and clears the stored request, and
every later lifecycle hook (`process`, `process_before_every_sampling`,
`postprocess_image`, `postprocess`) is a no-op on the run context: no
mutation, no auxiliary images appended. -/
theorem C3_disabled_noop (Img : Type)
    (get_lightmap : ICLightArgs Img → Processing Img → Img)
    (apply_ic_light : Processing Img → ICLightArgs Img → Processing Img)
    (np_uint8 : Img → Img) (restore_detail : Img → Img → Int → Img)
    (st st' : ScriptState Img) (p p' q : Processing Img)
    (pp : PostprocessImageArgs Img) (pr : Processed Img) (fetched : ICLightArgs Img)
    (hd : fetched.enabled = false)
    (hok : ICLightScript.before_process Img get_lightmap st p fetched =
      Except.ok (st', p')) :
    p' = p ∧ st'.args = none ∧
    ICLightScript.process Img apply_ic_light st' q = Except.ok (st', q) ∧
    ICLightScript.process_before_every_sampling Img apply_ic_light st' q = (st', q) ∧
    ICLightScript.postprocess_image Img np_uint8 restore_detail st' pp = (st', pp) ∧
    ICLightScript.postprocess Img st' q pr = (st', pr) := by
  obtain ⟨-, -, hdis, -⟩ :=
    before_process_ok_inv Img get_lightmap st st' p p' fetched hok
  obtain ⟨hargs, hp⟩ := hdis hd
  exact ⟨hp, hargs,
    process_no_request Img apply_ic_light st' q hargs,
    process_before_every_sampling_no_request Img apply_ic_light st' q hargs,
    postprocess_image_no_request Img np_uint8 restore_detail st' pp hargs,
    postprocess_no_request Img st' q pr hargs⟩

/-- Witness for C3 at a concrete disabled run. -/
theorem C3_witness :
    c3P = c3P ∧ c3St'.args = none ∧
    ICLightScript.process Nat wApply c3St' c3P = Except.ok (c3St', c3P) ∧
    ICLightScript.process_before_every_sampling Nat wApply c3St' c3P = (c3St', c3P) ∧
    ICLightScript.postprocess_image Nat wU8 wRestore c3St' c3PP = (c3St', c3PP) ∧
    ICLightScript.postprocess Nat c3St' c3P c3Pr = (c3St', c3Pr) :=
  C3_disabled_noop Nat wGetLightmap wApply wU8 wRestore
    c3St c3St' c3P c3P c3P c3PP c3Pr c3A rfl rfl

/-- C4: `before_process` replaces the first initial image with the
computed lightmap exactly on img2img runs with an enabled request; on
txt2img runs or with a disabled request the processing object is returned
unchanged. -/
theorem C4_lightmap_replacement (Img : Type)
    (get_lightmap : ICLightArgs Img → Processing Img → Img)
    (st st' : ScriptState Img) (p p' : Processing Img) (fetched : ICLightArgs Img)
    (hok : ICLightScript.before_process Img get_lightmap st p fetched =
      Except.ok (st', p')) :
    (p.mode = ProcessingMode.img2img → fetched.enabled = true →
      p'.init_images = get_lightmap fetched p :: p.init_images.tail) ∧
    ((p.mode = ProcessingMode.txt2img ∨ fetched.enabled = false) → p' = p) := by
  unfold ICLightScript.before_process at hok
  by_cases he : fetched.enabled = false
  · rw [if_pos he] at hok
    simp only [Except.ok.injEq, Prod.mk.injEq] at hok
    obtain ⟨h1, h2⟩ := hok
    subst h1; subst h2
    refine ⟨fun _ ht => ?_, fun _ => rfl⟩
    simp [he] at ht
  · rw [if_neg he] at hok
    by_cases hm : p.mode = ProcessingMode.img2img
    · rw [if_pos hm] at hok
      cases hpi : p.init_images with
      | nil => rw [hpi] at hok; simp at hok
      | cons a t =>
        rw [hpi] at hok
        simp only [Except.ok.injEq, Prod.mk.injEq] at hok
        obtain ⟨h1, h2⟩ := hok
        subst h1; subst h2
        constructor
        · intro _ _
          simp [hpi]
        · intro hcase
          rcases hcase with hc | hc
          · rw [hm] at hc; simp at hc
          · exact absurd hc he
    · rw [if_neg hm] at hok
      simp only [Except.ok.injEq, Prod.mk.injEq] at hok
      obtain ⟨h1, h2⟩ := hok
      subst h1; subst h2
      exact ⟨fun hmm _ => absurd hmm hm, fun _ => rfl⟩

/-- Witness for C4 at a concrete enabled img2img run. -/
theorem C4_witness :
    c4P'.init_images = wGetLightmap c4A c4P :: c4P.init_images.tail :=
  (C4_lightmap_replacement Nat wGetLightmap c4St c4St' c4P c4P' c4A rfl).1 rfl rfl

/-- C9: on every successful `before_process` the per-run stash of
detail-restored images is reset to empty, and a disabled fetched request
clears the stored request to None, so nothing from a previous run can
leak into this run's hooks or output collection. -/
theorem C9_per_run_reset (Img : Type)
    (get_lightmap : ICLightArgs Img → Processing Img → Img)
    (st st' : ScriptState Img) (p p' : Processing Img) (fetched : ICLightArgs Img)
    (hok : ICLightScript.before_process Img get_lightmap st p fetched =
      Except.ok (st', p')) :
    st'.detailed_images = [] ∧ (fetched.enabled = false → st'.args = none) := by
  obtain ⟨-, hdet, hdis, -⟩ :=
    before_process_ok_inv Img get_lightmap st st' p p' fetched hok
  exact ⟨hdet, fun hd => (hdis hd).1⟩

/-- Witness for C9 at a concrete disabled run with leftovers. -/
theorem C9_witness :
    c3St'.detailed_images = [] ∧ c3St'.args = none := by
  have h := C9_per_run_reset Nat wGetLightmap c3St c3St' c3P c3P c3A rfl
  exact ⟨h.1, h.2 rfl⟩

/-- C10: on an img2img run with an enabled request, `before_process`
writes `init_images[0]` unguarded: it raises IndexError exactly when
`init_images` is empty, and succeeds whenever `init_images` is non-empty,
so non-emptiness is the totality precondition and makes the error branch
unreachable. -/
theorem C10_init_images_guard (Img : Type)
    (get_lightmap : ICLightArgs Img → Processing Img → Img)
    (st : ScriptState Img) (p : Processing Img) (fetched : ICLightArgs Img)
    (hm : p.mode = ProcessingMode.img2img) (he : fetched.enabled = true) :
    (p.init_images = [] →
      ICLightScript.before_process Img get_lightmap st p fetched =
        Except.error "IndexError: list assignment index out of range") ∧
    (p.init_images ≠ [] →
      exceptOk (ICLightScript.before_process Img get_lightmap st p fetched) = true) := by
  unfold ICLightScript.before_process
  rw [if_neg (by simp [he]), if_pos hm]
  constructor
  · intro hnil
    rw [hnil]
  · intro hne
    cases hpi : p.init_images with
    | nil => exact absurd hpi hne
    | cons a t => rfl

/-- Python `int()` of an integer-valued rational is that integer. -/
theorem pyInt_intCast (n : Int) : pyInt ((n : Int) : Rat) = n := by
  simp [pyInt, Rat.intCast_num, Rat.intCast_den]

/-- Witness for C10 at a concrete empty and a concrete non-empty run. -/
theorem C10_witness :
    ICLightScript.before_process Nat wGetLightmap c4St c10Pempty c4A =
      Except.error "IndexError: list assignment index out of range" ∧
    exceptOk (ICLightScript.before_process Nat wGetLightmap c4St c4P c4A) = true :=
  ⟨(C10_init_images_guard Nat wGetLightmap c4St c10Pempty c4A rfl rfl).1 rfl,
   (C10_init_images_guard Nat wGetLightmap c4St c4P c4A rfl rfl).2 (by simp [c4P, wProc])⟩

/-- C1 (amended): on every enabled run, `postprocess` leaves the output
collection as the primary generated images first, then — only under the
A1111 backend — the processing object's auxiliary extra result images
(background composites), and the detail-restored variants last. -/
theorem C1_postprocess_append_order (Img : Type)
    (st : ScriptState Img) (p : Processing Img) (pr : Processed Img)
    (a : ICLightArgs Img)
    (ha : st.args = some a) (he : a.enabled = true) :
    (ICLightScript.postprocess Img st p pr).2.images =
      pr.images ++
        (if st.backend_type = BackendType.A1111 then p.extra_result_images else []) ++
        st.detailed_images := by
  unfold ICLightScript.postprocess
  rw [ha]
  by_cases hb : st.backend_type = BackendType.A1111 <;>
    by_cases hx : p.extra_result_images.isEmpty <;>
      by_cases hdet : st.detailed_images.isEmpty <;>
        simp_all [List.isEmpty_iff]

/-- C1 counterexample: at a concrete enabled A1111 run with one primary
image (10), one background composite (20) and one detail-restored variant
(30), `postprocess` yields [10, 20, 30] — background composite before the
detail-restored variant — not the claimed order primary, detail-restored,
then other auxiliary. -/
theorem C1_counterexample :
    (ICLightScript.postprocess Nat c1St c1P c1Pr).2.images = [10, 20, 30] ∧
    (ICLightScript.postprocess Nat c1St c1P c1Pr).2.images ≠
      c1Pr.images ++ c1St.detailed_images ++ c1P.extra_result_images := by
  constructor
  · rfl
  · decide

/-- Witness for the amended C1 at the concrete run of the counterexample. -/
theorem C1_witness :
    (ICLightScript.postprocess Nat c1St c1P c1Pr).2.images =
      c1Pr.images ++
        (if c1St.backend_type = BackendType.A1111 then c1P.extra_result_images else []) ++
        c1St.detailed_images :=
  C1_postprocess_append_order Nat c1St c1P c1Pr c1A rfl rfl

/-- C5: the backend is chosen exactly once at script construction — Forge
when the forge backend imports, else A1111 — no lifecycle hook ever
changes it, and the apply hooks exclude each other: `process` is a no-op
whenever the backend is not A1111 and `process_before_every_sampling` is a
no-op whenever it is A1111. -/
theorem C5_backend_dispatch (Img : Type)
    (get_lightmap : ICLightArgs Img → Processing Img → Img)
    (apply_ic_light : Processing Img → ICLightArgs Img → Processing Img)
    (np_uint8 : Img → Img) (restore_detail : Img → Img → Int → Img) :
    (∀ forge_importable : Bool,
      (ICLightScript.init Img forge_importable).backend_type =
        if forge_importable then BackendType.Forge else BackendType.A1111) ∧
    (∀ (st st' : ScriptState Img) (p p' : Processing Img) (fetched : ICLightArgs Img),
      ICLightScript.before_process Img get_lightmap st p fetched = Except.ok (st', p') →
        st'.backend_type = st.backend_type) ∧
    (∀ (st st' : ScriptState Img) (p p' : Processing Img),
      ICLightScript.process Img apply_ic_light st p = Except.ok (st', p') →
        st'.backend_type = st.backend_type) ∧
    (∀ (st : ScriptState Img) (p : Processing Img),
      ((ICLightScript.process_before_every_sampling Img apply_ic_light st p).1).backend_type
        = st.backend_type) ∧
    (∀ (st : ScriptState Img) (pp : PostprocessImageArgs Img),
      ((ICLightScript.postprocess_image Img np_uint8 restore_detail st pp).1).backend_type
        = st.backend_type) ∧
    (∀ (st : ScriptState Img) (p : Processing Img) (pr : Processed Img),
      ((ICLightScript.postprocess Img st p pr).1).backend_type = st.backend_type) ∧
    (∀ (st : ScriptState Img) (p : Processing Img),
      st.backend_type ≠ BackendType.A1111 →
        ICLightScript.process Img apply_ic_light st p = Except.ok (st, p)) ∧
    (∀ (st : ScriptState Img) (p : Processing Img),
      st.backend_type = BackendType.A1111 →
        ICLightScript.process_before_every_sampling Img apply_ic_light st p = (st, p)) := by
  refine ⟨fun _ => rfl, ?_, ?_, ?_, ?_, ?_, ?_, ?_⟩
  · intro st st' p p' fetched hok
    exact (before_process_ok_inv Img get_lightmap st st' p p' fetched hok).1
  · intro st st' p p' hok
    rw [process_ok_state Img apply_ic_light st st' p p' hok]
  · intro st p
    rw [process_before_every_sampling_state Img apply_ic_light st p]
  · intro st pp
    exact (postprocess_image_frame Img np_uint8 restore_detail st pp).1
  · intro st p pr
    rw [postprocess_state Img st p pr]
  · intro st p hb
    unfold ICLightScript.process
    rw [if_pos hb]
  · intro st p hb
    unfold ICLightScript.process_before_every_sampling
    rw [if_pos hb]

/-- Witness for C5: construction picks Forge when the import succeeds, the
A1111 hook no-ops on a Forge state, the Forge hook no-ops on an A1111
state. -/
theorem C5_witness :
    (ICLightScript.init Nat true).backend_type =
      (if true then BackendType.Forge else BackendType.A1111) ∧
    ICLightScript.process Nat wApply c5St c3P = Except.ok (c5St, c3P) ∧
    ICLightScript.process_before_every_sampling Nat wApply c2St c2P = (c2St, c2P) := by
  have h := C5_backend_dispatch Nat wGetLightmap wApply wU8 wRestore
  exact ⟨h.1 true, h.2.2.2.2.2.2.1 c5St c3P (by decide),
    h.2.2.2.2.2.2.2 c2St c2P rfl⟩

/-- C6: on an enabled request with detail transfer, `postprocess_image`
appends exactly one detail-restored variant to the stash — `restore_detail`
of the produced image's uint8 array against the raw `input_fg` when
`detail_transfer_use_raw_input` else the background-removed `input_fg_rgb`,
at the integer blur radius — and returns the produced image unmodified. -/
theorem C6_postprocess_image_stash (Img : Type)
    (np_uint8 : Img → Img) (restore_detail : Img → Img → Int → Img)
    (st : ScriptState Img) (pp : PostprocessImageArgs Img) (a : ICLightArgs Img)
    (ha : st.args = some a) (he : a.enabled = true) (hd : a.detail_transfer = true) :
    ICLightScript.postprocess_image Img np_uint8 restore_detail st pp =
      ({ st with detailed_images := st.detailed_images ++
          [restore_detail (np_uint8 pp.image)
            (if a.detail_transfer_use_raw_input then a.input_fg else a.input_fg_rgb)
            (pyInt a.detail_transfer_blur_radius)] },
       pp) := by
  unfold ICLightScript.postprocess_image
  rw [ha]
  simp [he, hd]

/-- Witness for C6 at a concrete produced image. -/
theorem C6_witness :
    ICLightScript.postprocess_image Nat wU8 wRestore c6St c6PP =
      ({ c6St with detailed_images := c6St.detailed_images ++
          [wRestore (wU8 c6PP.image)
            (if c6A.detail_transfer_use_raw_input then c6A.input_fg else c6A.input_fg_rgb)
            (pyInt c6A.detail_transfer_blur_radius)] },
       c6PP) :=
  C6_postprocess_image_stash Nat wU8 wRestore c6St c6PP c6A rfl rfl rfl

/-- C7: in img2img contexts the Mode dropdown offers only the FC choice
and is non-interactive, with FC as its initial value, so an img2img run's
request can only carry the FOREGROUND_CONDITIONED model type. -/
theorem C7_img2img_fc_only :
    model_type_choices true = [ModelType.FC] ∧
    model_type_interactive true = false ∧
    model_type_default = ModelType.FC ∧
    ∀ m ∈ model_type_choices true, m = ModelType.FC := by
  refine ⟨rfl, rfl, rfl, ?_⟩
  intro m hm
  simp [model_type_choices] at hm
  exact hm

/-- Witness for C7 at the concrete choice FC. -/
theorem C7_witness : ModelType.FC = ModelType.FC :=
  C7_img2img_fc_only.2.2.2 ModelType.FC (by simp [model_type_choices])

/-- C8: every value the blur-radius slider (minimum 1, maximum 9, step 2,
default 5) can carry is an odd integer in [1,9]; off-grid or out-of-range
submissions are clamped consistently onto that value set, the default is
5, and the Python `int()` conversion applied in `postprocess_image` passes
such a value through unchanged. -/
theorem C8_blur_radius_domain (x : Rat) :
    slider_snap blur_radius_min blur_radius_max blur_radius_step x ∈
      blur_radius_slider_values ∧
    (slider_snap blur_radius_min blur_radius_max blur_radius_step x) % 2 = 1 ∧
    blur_radius_min ≤ slider_snap blur_radius_min blur_radius_max blur_radius_step x ∧
    slider_snap blur_radius_min blur_radius_max blur_radius_step x ≤ blur_radius_max ∧
    slider_snap blur_radius_min blur_radius_max blur_radius_step blur_radius_default = 5 ∧
    pyInt ((slider_snap blur_radius_min blur_radius_max blur_radius_step x : Int) : Rat) =
      slider_snap blur_radius_min blur_radius_max blur_radius_step x := by
  have hdef : slider_snap blur_radius_min blur_radius_max blur_radius_step
      blur_radius_default = 5 := by
    simp only [slider_snap, blur_radius_min, blur_radius_max, blur_radius_step,
      blur_radius_default]
    norm_num [ratRound]
  have hcase : slider_snap blur_radius_min blur_radius_max blur_radius_step x = 1 ∨
      slider_snap blur_radius_min blur_radius_max blur_radius_step x = 3 ∨
      slider_snap blur_radius_min blur_radius_max blur_radius_step x = 5 ∨
      slider_snap blur_radius_min blur_radius_max blur_radius_step x = 7 ∨
      slider_snap blur_radius_min blur_radius_max blur_radius_step x = 9 := by
    unfold slider_snap blur_radius_min blur_radius_max blur_radius_step
    omega
  refine ⟨?_, ?_, ?_, ?_, hdef, pyInt_intCast _⟩ <;>
    rcases hcase with h | h | h | h | h <;> rw [h] <;> decide

/-- Witness for C8 at the concrete off-grid submission 4. -/
theorem C8_witness :
    slider_snap blur_radius_min blur_radius_max blur_radius_step 4 ∈
      blur_radius_slider_values :=
  (C8_blur_radius_domain 4).1

end ICLight
